import Mathlib

/-!
Verification of the livestreamer orchestration core (src/index.js and the
related revision snapshots) against its natural-language specification.

The shallow embedding below translates, from the JavaScript source:
  * the configuration resolver (validateConfig, FULL_RTMP_URL),
  * the supervisor / recovery loop (startStream event registration,
    scheduleReconnect, the setTimeout-based restart, process.exit),
  * the display/audio bootstrap of both source revisions (startXvfb),
  * the SIGINT graceful-shutdown handler,
  * the crop/scale geometry of the capture pipeline,
  * the log lines emitted by the pipeline start callback.
-/

/-- Severity tags used by the `log` helper in src/index.js. -/
inductive Severity where
  | INFO | WARN | ERROR | SUCCESS | DEBUG
deriving DecidableEq, Repr

/-- A structured log line: severity tag plus message, as produced by
`log(message, type)` in src/index.js (the timestamp is not modelled). -/
structure LogLine where
  sev : Severity
  msg : String
deriving DecidableEq, Repr

/-! ## Configuration resolver (src/index.js lines 7-25) -/

/-- The three environment values read at startup.  `process.env.X` yields a
string or `undefined`; we model it as `Option String`. -/
structure Env where
  WEBSITE_URL : Option String
  RTMP_URL : Option String
  RTMP_KEY : Option String
deriving DecidableEq, Repr

/-- JavaScript falsiness of an environment value: `!v` is true exactly when
the variable is undefined or the empty string. -/
def jsFalsy : Option String → Bool
  | none => true
  | some s => s.isEmpty

/-- The `missing` list built by `validateConfig` (src/index.js lines 11-15),
in source order. -/
def missingVars (e : Env) : List String :=
  (if jsFalsy e.WEBSITE_URL then ["WEBSITE_URL"] else []) ++
  (if jsFalsy e.RTMP_URL then ["RTMP_URL"] else []) ++
  (if jsFalsy e.RTMP_KEY then ["RTMP_KEY"] else [])

/-- `validateConfig` (src/index.js lines 11-21): when any required value is
missing it logs a single ERROR line listing all missing names joined by
a comma and exits with status 1; otherwise it returns nothing. -/
def validateConfig (e : Env) : Option (Nat × LogLine) :=
  let missing := missingVars e
  if missing.length > 0 then
    some (1, ⟨Severity.ERROR,
      "Missing required environment variables: " ++ String.intercalate ", " missing⟩)
  else
    none

/-- JavaScript `s.endsWith(suff)`, modelled on the character list of the
string so that it evaluates inside the kernel. -/
def strEndsWith (s suff : String) : Bool :=
  suff.data.isSuffixOf s.data

/-- `FULL_RTMP_URL` (src/index.js line 25): append the key to the base URL,
inserting a slash only when the base does not already end in one. -/
def FULL_RTMP_URL (url key : String) : String :=
  if strEndsWith url "/" then url ++ key else url ++ "/" ++ key

/-- The validated configuration held by the process after `validateConfig`
succeeds. -/
structure StreamConfig where
  DASHBOARD_URL : String
  RTMP_URL : String
  RTMP_KEY : String
  fullUrl : String
deriving DecidableEq, Repr

/-- Outcome of the module top level before `main` runs: either
`validateConfig` exited the process, or the program proceeds to bootstrap
with the validated configuration. -/
inductive ProgramOutcome where
  | configExit (code : Nat) (line : LogLine)
  | proceeds (cfg : StreamConfig)
deriving DecidableEq, Repr

/-- The module top level of src/index.js (lines 7-25): `validateConfig()`
runs before anything else; on failure the process exits (so no bootstrap
step ever runs), otherwise `FULL_RTMP_URL` is derived and `main` follows. -/
def resolveEnv (e : Env) : ProgramOutcome :=
  match validateConfig e with
  | some (code, line) => ProgramOutcome.configExit code line
  | none =>
      let d := e.WEBSITE_URL.getD ""
      let u := e.RTMP_URL.getD ""
      let k := e.RTMP_KEY.getD ""
      ProgramOutcome.proceeds ⟨d, u, k, FULL_RTMP_URL u k⟩

/-- True exactly when the top level reaches bootstrap (`main`). -/
def bootstrapRuns : ProgramOutcome → Bool
  | ProgramOutcome.configExit _ _ => false
  | ProgramOutcome.proceeds _ => true

/-- Claim C4: whenever at least one of the three required values is absent,
configuration resolution reports every missing field name in one ERROR
line, the process exits with the non-zero status 1, and no bootstrap step
runs. -/
theorem claim4_config_reports_all_missing (e : Env)
    (h : (jsFalsy e.WEBSITE_URL || jsFalsy e.RTMP_URL || jsFalsy e.RTMP_KEY) = true) :
    resolveEnv e = ProgramOutcome.configExit 1
      ⟨Severity.ERROR,
        "Missing required environment variables: " ++
          String.intercalate ", " (missingVars e)⟩ ∧
    ("WEBSITE_URL" ∈ missingVars e ↔ jsFalsy e.WEBSITE_URL = true) ∧
    ("RTMP_URL" ∈ missingVars e ↔ jsFalsy e.RTMP_URL = true) ∧
    ("RTMP_KEY" ∈ missingVars e ↔ jsFalsy e.RTMP_KEY = true) ∧
    bootstrapRuns (resolveEnv e) = false := by
  have hlen : (missingVars e).length > 0 := by
    unfold missingVars
    rcases Bool.or_eq_true_iff.mp h with h1 | h1
    · rcases Bool.or_eq_true_iff.mp h1 with h2 | h2 <;> simp [h2]
    · simp [h1]
  have hres : resolveEnv e = ProgramOutcome.configExit 1
      ⟨Severity.ERROR,
        "Missing required environment variables: " ++
          String.intercalate ", " (missingVars e)⟩ := by
    unfold resolveEnv validateConfig
    simp [hlen]
  refine ⟨hres, ?_, ?_, ?_, by rw [hres]; rfl⟩ <;>
    · unfold missingVars
      cases h1 : jsFalsy e.WEBSITE_URL <;> cases h2 : jsFalsy e.RTMP_URL <;>
        cases h3 : jsFalsy e.RTMP_KEY <;> simp

/-- Witness for claim C4 at a concrete environment missing the page URL and
the stream key. -/
theorem claim4_witness :
    resolveEnv ⟨none, some "rtmp://x/live", some ""⟩ = ProgramOutcome.configExit 1
      ⟨Severity.ERROR,
        "Missing required environment variables: " ++
          String.intercalate ", " (missingVars ⟨none, some "rtmp://x/live", some ""⟩)⟩ ∧
    ("WEBSITE_URL" ∈ missingVars ⟨none, some "rtmp://x/live", some ""⟩ ↔
      jsFalsy (none : Option String) = true) ∧
    ("RTMP_URL" ∈ missingVars ⟨none, some "rtmp://x/live", some ""⟩ ↔
      jsFalsy (some "rtmp://x/live") = true) ∧
    ("RTMP_KEY" ∈ missingVars ⟨none, some "rtmp://x/live", some ""⟩ ↔
      jsFalsy (some "") = true) ∧
    bootstrapRuns (resolveEnv ⟨none, some "rtmp://x/live", some ""⟩) = false :=
  claim4_config_reports_all_missing ⟨none, some "rtmp://x/live", some ""⟩ (by decide)

/-- Claim C5: the composed destination is base + key when the base already
ends in the path separator, and base + separator + key otherwise; in
particular base "rtmp://x/live" with key "abc" composes to
"rtmp://x/live/abc". -/
theorem claim5_composed_destination :
    (∀ base key : String, strEndsWith base "/" = true →
      FULL_RTMP_URL base key = base ++ key) ∧
    (∀ base key : String, strEndsWith base "/" = false →
      FULL_RTMP_URL base key = base ++ "/" ++ key) ∧
    FULL_RTMP_URL "rtmp://x/live" "abc" = "rtmp://x/live/abc" := by
  refine ⟨?_, ?_, ?_⟩
  · intro base key h; simp [FULL_RTMP_URL, h]
  · intro base key h; simp [FULL_RTMP_URL, h]
  · decide

/-- Witness for claim C5: both separator cases evaluated at concrete
inputs. -/
theorem claim5_witness :
    FULL_RTMP_URL "rtmp://a/" "k" = "rtmp://a/" ++ "k" ∧
    FULL_RTMP_URL "rtmp://a" "k" = "rtmp://a" ++ "/" ++ "k" :=
  ⟨claim5_composed_destination.1 "rtmp://a/" "k" (by decide),
   claim5_composed_destination.2.1 "rtmp://a" "k" (by decide)⟩

/-- Sanity check: the separator test agrees with intuition on the two
scenario inputs. -/
example : strEndsWith "rtmp://x/live" "/" = false ∧ strEndsWith "rtmp://x/" "/" = true := by
  decide

/-! ## Supervisor / recovery loop (src/index.js lines 155-233, 235-258)

The steady-state behaviour after a successful bootstrap: `startStream`
registers the `error` and `end` callbacks of the encoding pipeline, both of
which call `scheduleReconnect`; `scheduleReconnect` kills the current
pipeline handle (if any), exits the process when the browser handle exists
and reports disconnected, and otherwise schedules `startStream` again after
`RECONNECT_DELAY` milliseconds.  Pipeline instances are numbered so that the
trace of kill/start actions can be inspected. -/

/-- `RECONNECT_DELAY` (src/index.js line 27), in milliseconds. -/
def RECONNECT_DELAY : Nat := 5000

/-- Externally visible supervisor actions, in order of occurrence:
`killReq i` = `ffmpegCommand.kill()` on instance `i` (stop requested),
`started i` = a new ffmpeg invocation `i` is run by `startStream`,
`exited c` = `process.exit(c)`. -/
inductive SupAction where
  | killReq : Nat → SupAction
  | started : Nat → SupAction
  | exited : Nat → SupAction
deriving DecidableEq, Repr

/-- Supervisor state: current time in ms, the mutable globals
`ffmpegCommand` (identified by instance number) and `browser`
(`none` = handle never created, `some c` = created with `isConnected() = c`),
the deadlines of pending `setTimeout(startStream, ...)` callbacks in FIFO
order, a fresh-instance counter, the exit status once `process.exit` ran,
the action trace and the log. -/
structure SupState where
  now : Nat
  ffmpegCommand : Option Nat
  browser : Option Bool
  timers : List Nat
  nextId : Nat
  exitCode : Option Nat
  trace : List SupAction
  log : List LogLine
deriving DecidableEq, Repr

/-- The INFO line logged on entry to `scheduleReconnect`
(src/index.js line 214). -/
def reconnectMsg : LogLine :=
  ⟨Severity.INFO, s!"Restarting streaming components in {RECONNECT_DELAY / 1000}s..."⟩

/-- The WARN line logged before the full-restart exit
(src/index.js line 228). -/
def disconnectMsg : LogLine :=
  ⟨Severity.WARN, "Browser disconnected. Full restart."⟩

/-- The first INFO line of `startStream` (src/index.js line 156); the
config-echo lines and the pipeline start callback lines are modelled
separately with `onStartLogs`. -/
def startStreamMsg : LogLine :=
  ⟨Severity.INFO, "Starting FFmpeg stream..."⟩

/-- The cleanup block of `scheduleReconnect` (src/index.js lines 217-220):
if a pipeline handle is present, request its stop and null the handle. -/
def cleanupPipeline (s : SupState) : SupState :=
  match s.ffmpegCommand with
  | some i => { s with ffmpegCommand := none, trace := s.trace ++ [SupAction.killReq i] }
  | none => s

/-- `scheduleReconnect` (src/index.js lines 213-233): log, kill the current
pipeline handle, then either `process.exit(1)` when the browser handle is
present and disconnected, or schedule `startStream` after
`RECONNECT_DELAY`. -/
def scheduleReconnect (s : SupState) : SupState :=
  let s1 := cleanupPipeline { s with log := s.log ++ [reconnectMsg] }
  -- the cleanup block never writes `browser`, so the connectivity check
  -- reads the value the handler was entered with
  match s.browser with
  | some false =>
      { s1 with exitCode := some 1,
                trace := s1.trace ++ [SupAction.exited 1],
                log := s1.log ++ [disconnectMsg] }
  | _ =>
      { s1 with timers := s1.timers ++ [s1.now + RECONNECT_DELAY] }

/-- `startStream` (src/index.js lines 155-211) as it affects the
supervisor: a fresh ffmpeg invocation becomes the current handle and is
run; its `error`/`end` callbacks are the pipeline events below. -/
def startStream (s : SupState) : SupState :=
  { s with ffmpegCommand := some s.nextId,
           nextId := s.nextId + 1,
           trace := s.trace ++ [SupAction.started s.nextId],
           log := s.log ++ [startStreamMsg] }

/-- Asynchronous occurrences the supervisor reacts to:
`pipelineEvent i` = the ffmpeg instance `i` delivered `error` or `end`
(the handler does not inspect which instance it came from, exactly as in
the source), `timerFire` = the oldest due `setTimeout` callback runs,
`tick n` = time advances by `n` ms, `disconnect` = the browser connection
drops (its `isConnected()` flag becomes false). -/
inductive Ev where
  | pipelineEvent : Nat → Ev
  | timerFire : Ev
  | tick : Nat → Ev
  | disconnect : Ev
deriving DecidableEq, Repr

/-- One supervisor step.  After `process.exit` nothing runs any more; a
timer only fires when due. -/
def step (s : SupState) : Ev → SupState
  | Ev.pipelineEvent _ => if s.exitCode.isSome then s else scheduleReconnect s
  | Ev.timerFire =>
      if s.exitCode.isSome then s else
      match s.timers with
      | [] => s
      | d :: rest => if d ≤ s.now then startStream { s with timers := rest } else s
  | Ev.tick n => { s with now := s.now + n }
  | Ev.disconnect => { s with browser := s.browser.map (fun _ => false) }

/-- Run a sequence of occurrences. -/
def runEvs (s : SupState) : List Ev → SupState
  | [] => s
  | e :: es => runEvs (step s e) es

/-- The supervisor state right after a successful bootstrap: `main` ran
`startStream` once (instance 0), the browser handle exists with the given
connectivity. -/
def initState (connected : Bool) : SupState :=
  { now := 0, ffmpegCommand := some 0, browser := some connected, timers := [],
    nextId := 1, exitCode := none, trace := [SupAction.started 0],
    log := [startStreamMsg] }

/-- Scan an action trace: `seqRun r t = (handle after t, ok)` where the
scan fails (`ok = false`) exactly when a `started` action occurs while a
previously started instance has not had its stop requested. -/
def seqRun : Option Nat → List SupAction → Option Nat × Bool
  | r, [] => (r, true)
  | r, SupAction.killReq i :: rest => seqRun (if r = some i then none else r) rest
  | r, SupAction.started j :: rest =>
      match r with
      | some _ => ((seqRun (some j) rest).1, false)
      | none => seqRun (some j) rest
  | r, SupAction.exited _ :: rest => seqRun r rest

/-- A trace satisfies the at-most-one-pipeline discipline when its scan
never fails: no instance is started while the previous instance's stop has
not been requested. -/
def seqOk (r : Option Nat) (t : List SupAction) : Bool := (seqRun r t).2

/-! ### Field lemmas for the supervisor step -/

theorem cleanupPipeline_eq_some (s : SupState) (i : Nat) (hf : s.ffmpegCommand = some i) :
    cleanupPipeline s =
      { s with ffmpegCommand := none, trace := s.trace ++ [SupAction.killReq i] } := by
  simp [cleanupPipeline, hf]

theorem cleanupPipeline_eq_none (s : SupState) (hf : s.ffmpegCommand = none) :
    cleanupPipeline s = s := by
  simp [cleanupPipeline, hf]

theorem cleanupPipeline_browser (s : SupState) :
    (cleanupPipeline s).browser = s.browser := by
  rcases hf : s.ffmpegCommand with _ | i <;> simp [cleanupPipeline, hf]

theorem cleanupPipeline_timers (s : SupState) :
    (cleanupPipeline s).timers = s.timers := by
  rcases hf : s.ffmpegCommand with _ | i <;> simp [cleanupPipeline, hf]

theorem cleanupPipeline_now (s : SupState) :
    (cleanupPipeline s).now = s.now := by
  rcases hf : s.ffmpegCommand with _ | i <;> simp [cleanupPipeline, hf]

theorem cleanupPipeline_exitCode (s : SupState) :
    (cleanupPipeline s).exitCode = s.exitCode := by
  rcases hf : s.ffmpegCommand with _ | i <;> simp [cleanupPipeline, hf]

theorem cleanupPipeline_nextId (s : SupState) :
    (cleanupPipeline s).nextId = s.nextId := by
  rcases hf : s.ffmpegCommand with _ | i <;> simp [cleanupPipeline, hf]

/-- The stop requests the cleanup block appends to the trace. -/
def killActions : Option Nat → List SupAction
  | some i => [SupAction.killReq i]
  | none => []

theorem cleanupPipeline_trace (s : SupState) :
    (cleanupPipeline s).trace = s.trace ++ killActions s.ffmpegCommand := by
  rcases hf : s.ffmpegCommand with _ | i <;> simp [cleanupPipeline, killActions, hf]

theorem cleanupPipeline_ffmpegCommand (s : SupState) :
    (cleanupPipeline s).ffmpegCommand = none := by
  rcases hf : s.ffmpegCommand with _ | i <;> simp [cleanupPipeline, hf]

/-- Once `process.exit` has run, no later occurrence changes the exit code
or the action trace: event handlers and timers are dead. -/
theorem runEvs_frozen (evs : List Ev) (s : SupState) (h : s.exitCode.isSome = true) :
    (runEvs s evs).exitCode = s.exitCode ∧ (runEvs s evs).trace = s.trace := by
  induction evs generalizing s with
  | nil => exact ⟨rfl, rfl⟩
  | cons e es ih =>
      cases e with
      | pipelineEvent i => simpa [runEvs, step, h] using ih s h
      | timerFire => simpa [runEvs, step, h] using ih s h
      | tick n =>
          have := ih { s with now := s.now + n } (by simpa using h)
          simpa [runEvs, step] using this
      | disconnect =>
          have := ih { s with browser := s.browser.map (fun _ => false) } (by simpa using h)
          simpa [runEvs, step] using this

/-- Claim C2: a pipeline `error`/`end` event handled while the browser
handle exists and `isConnected()` is false makes the supervisor exit the
process with the non-zero status 1, schedules no restart timer, records
the fatal exit in the trace, and no later occurrence ever starts another
pipeline or changes the exit code, regardless of how many restarts
happened before (the state `s` is arbitrary). -/
theorem claim2_fatal_exit_when_disconnected (s : SupState) (i : Nat) (evs : List Ev)
    (hb : s.browser = some false) (hx : s.exitCode = none) :
    (step s (Ev.pipelineEvent i)).exitCode = some 1 ∧
    (step s (Ev.pipelineEvent i)).timers = s.timers ∧
    SupAction.exited 1 ∈ (step s (Ev.pipelineEvent i)).trace ∧
    (runEvs (step s (Ev.pipelineEvent i)) evs).exitCode = some 1 ∧
    (runEvs (step s (Ev.pipelineEvent i)) evs).trace = (step s (Ev.pipelineEvent i)).trace := by
  have hstep : step s (Ev.pipelineEvent i) = scheduleReconnect s := by
    simp [step, hx]
  have hfields : (scheduleReconnect s).exitCode = some 1 ∧
      (scheduleReconnect s).timers = s.timers ∧
      SupAction.exited 1 ∈ (scheduleReconnect s).trace := by
    simp only [scheduleReconnect, hb]
    refine ⟨by simp, ?_, ?_⟩
    · simp [cleanupPipeline_timers]
    · simp [cleanupPipeline_trace]
  rw [hstep]
  have hfrozen := runEvs_frozen evs (scheduleReconnect s) (by simp [hfields.1])
  exact ⟨hfields.1, hfields.2.1, hfields.2.2, by rw [hfrozen.1, hfields.1], hfrozen.2⟩

/-- A concrete post-restart state whose browser handle reports
disconnected. -/
def discState : SupState :=
  { now := 20000, ffmpegCommand := some 3, browser := some false, timers := [],
    nextId := 4, exitCode := none,
    trace := [SupAction.started 0, SupAction.killReq 0, SupAction.started 1,
              SupAction.killReq 1, SupAction.started 2, SupAction.killReq 2,
              SupAction.started 3],
    log := [] }

/-- Witness for claim C2: the fatal exit at a concrete state that already
went through three successful scoped restarts. -/
theorem claim2_witness :
    (step discState (Ev.pipelineEvent 3)).exitCode = some 1 ∧
    (step discState (Ev.pipelineEvent 3)).timers = discState.timers ∧
    SupAction.exited 1 ∈ (step discState (Ev.pipelineEvent 3)).trace ∧
    (runEvs (step discState (Ev.pipelineEvent 3)) [Ev.timerFire, Ev.tick 9000]).exitCode = some 1 ∧
    (runEvs (step discState (Ev.pipelineEvent 3)) [Ev.timerFire, Ev.tick 9000]).trace =
      (step discState (Ev.pipelineEvent 3)).trace :=
  claim2_fatal_exit_when_disconnected discState 3 [Ev.timerFire, Ev.tick 9000] rfl rfl

/-- Claim C3: a pipeline `error`/`end` event handled while the browser
handle reports connected does not exit the process; it schedules exactly
one restart timer with the fixed delay `RECONNECT_DELAY` (5000 ms, logged
as 5 s), and when that timer fires exactly one new pipeline instance is
started. -/
theorem claim3_scoped_restart_when_connected (s : SupState) (i : Nat)
    (hb : s.browser = some true) (hx : s.exitCode = none) (ht : s.timers = []) :
    (step s (Ev.pipelineEvent i)).exitCode = none ∧
    (step s (Ev.pipelineEvent i)).timers = [s.now + RECONNECT_DELAY] ∧
    RECONNECT_DELAY / 1000 = 5 ∧
    (runEvs s [Ev.pipelineEvent i, Ev.tick RECONNECT_DELAY, Ev.timerFire]).exitCode = none ∧
    (runEvs s [Ev.pipelineEvent i, Ev.tick RECONNECT_DELAY, Ev.timerFire]).trace =
      (step s (Ev.pipelineEvent i)).trace ++ [SupAction.started s.nextId] ∧
    (runEvs s [Ev.pipelineEvent i, Ev.tick RECONNECT_DELAY, Ev.timerFire]).timers = [] := by
  simp [runEvs, step, scheduleReconnect, startStream, hb, hx, ht,
    cleanupPipeline_timers, cleanupPipeline_trace, cleanupPipeline_now,
    cleanupPipeline_exitCode, cleanupPipeline_nextId, cleanupPipeline_browser,
    cleanupPipeline_ffmpegCommand, RECONNECT_DELAY]

/-- A concrete streaming state whose browser handle reports connected. -/
def connState : SupState :=
  { now := 11000, ffmpegCommand := some 1, browser := some true, timers := [],
    nextId := 2, exitCode := none,
    trace := [SupAction.started 0, SupAction.killReq 0, SupAction.started 1],
    log := [] }

/-- Witness for claim C3: one full restart cycle at a concrete state. -/
theorem claim3_witness :
    (step connState (Ev.pipelineEvent 1)).exitCode = none ∧
    (step connState (Ev.pipelineEvent 1)).timers = [connState.now + RECONNECT_DELAY] ∧
    RECONNECT_DELAY / 1000 = 5 ∧
    (runEvs connState [Ev.pipelineEvent 1, Ev.tick RECONNECT_DELAY, Ev.timerFire]).exitCode = none ∧
    (runEvs connState [Ev.pipelineEvent 1, Ev.tick RECONNECT_DELAY, Ev.timerFire]).trace =
      (step connState (Ev.pipelineEvent 1)).trace ++ [SupAction.started connState.nextId] ∧
    (runEvs connState [Ev.pipelineEvent 1, Ev.tick RECONNECT_DELAY, Ev.timerFire]).timers = [] :=
  claim3_scoped_restart_when_connected connState 1 rfl rfl rfl

/-- Claim C10: a pipeline `error`/`end` event handled while the browser
handle was never created (`browser` is null) does not exit the process:
the fatal branch requires the handle to be both present and disconnected,
so the supervisor schedules a scoped restart after the fixed delay. -/
theorem claim10_restart_when_browser_absent (s : SupState) (i : Nat)
    (hb : s.browser = none) (hx : s.exitCode = none) :
    (step s (Ev.pipelineEvent i)).exitCode = none ∧
    (step s (Ev.pipelineEvent i)).timers = s.timers ++ [s.now + RECONNECT_DELAY] := by
  simp [step, scheduleReconnect, hb, hx, cleanupPipeline_timers,
    cleanupPipeline_exitCode, cleanupPipeline_now]

/-- A state in which a pipeline event arrives before the browser handle was
ever assigned. -/
def noBrowserState : SupState :=
  { now := 0, ffmpegCommand := some 0, browser := none, timers := [],
    nextId := 1, exitCode := none, trace := [SupAction.started 0], log := [] }

/-- Witness for claim C10 at a concrete state with no browser handle. -/
theorem claim10_witness :
    (step noBrowserState (Ev.pipelineEvent 0)).exitCode = none ∧
    (step noBrowserState (Ev.pipelineEvent 0)).timers =
      noBrowserState.timers ++ [noBrowserState.now + RECONNECT_DELAY] :=
  claim10_restart_when_browser_absent noBrowserState 0 rfl rfl

/-- Counterexample to claim C1 as stated: when two lifecycle events are
delivered for the same pipeline instance 0 (the source kills the pipeline
on the first event, and killing an ffmpeg invocation itself surfaces a
further `error` event), each handled event schedules its own restart
timer; the two timers then start instances 1 and 2, the second of which is
started while the stop of instance 1 was never requested.  The scan of the
resulting action trace fails. -/
theorem claim1_counterexample :
    seqOk none (runEvs (initState true)
      [Ev.pipelineEvent 0, Ev.pipelineEvent 0, Ev.tick RECONNECT_DELAY,
       Ev.timerFire, Ev.timerFire]).trace = false ∧
    (runEvs (initState true)
      [Ev.pipelineEvent 0, Ev.pipelineEvent 0, Ev.tick RECONNECT_DELAY,
       Ev.timerFire, Ev.timerFire]).trace =
      [SupAction.started 0, SupAction.killReq 0, SupAction.started 1,
       SupAction.started 2] := by
  constructor <;> rfl

/-! ### Claim C1, amended: the single-pipeline invariant under the
discipline that each pipeline instance delivers at most one lifecycle
event. -/

/-- Admissibility of one occurrence: a lifecycle event must come from an
instance that was actually started, and no instance delivers more than one
lifecycle event (`used` records the instances whose event was already
handled). -/
def evOk (s : SupState) (used : List Nat) : Ev → Bool
  | Ev.pipelineEvent i => decide (i < s.nextId) && !(decide (i ∈ used))
  | _ => true

/-- Accumulate the instances whose lifecycle event has been handled. -/
def evUsed (used : List Nat) : Ev → List Nat
  | Ev.pipelineEvent i => i :: used
  | _ => used

/-- Admissibility of a whole occurrence sequence from a given state. -/
def validEvs (s : SupState) (used : List Nat) : List Ev → Bool
  | [] => true
  | e :: es => evOk s used e && validEvs (step s e) (evUsed used e) es

/-- One when a pipeline handle is present, zero otherwise. -/
def aliveBit (o : Option Nat) : Nat := if o.isSome then 1 else 0

/-- The inductive invariant of the supervisor under the one-event-per-
instance discipline: the trace scan has never failed and mirrors the
current handle; the handled-event accumulator covers exactly the instances
that are neither current nor pending; while the process lives there is
exactly one pipeline alive or one restart timer pending, never both. -/
structure SupInv (s : SupState) (used : List Nat) : Prop where
  ok : (seqRun none s.trace).2 = true
  scan : s.exitCode = none → (seqRun none s.trace).1 = s.ffmpegCommand
  nodup : used.Nodup
  ub : ∀ i ∈ used, i < s.nextId
  full : s.exitCode = none → s.nextId = used.length + aliveBit s.ffmpegCommand
  tm : s.exitCode = none → s.timers.length + aliveBit s.ffmpegCommand = 1

theorem seqRun_append (r : Option Nat) (t u : List SupAction) :
    seqRun r (t ++ u) =
      ((seqRun (seqRun r t).1 u).1, (seqRun r t).2 && (seqRun (seqRun r t).1 u).2) := by
  induction t generalizing r with
  | nil => simp [seqRun]
  | cons a t ih =>
      cases a with
      | killReq i => simp [seqRun, ih]
      | started j => cases r with
        | none => simp [seqRun, ih]
        | some k => simp [seqRun, ih]
      | exited c => simp [seqRun, ih]

/-- Pigeonhole: a duplicate-free list of naturals below `n` of length `n`
contains every natural below `n`. -/
theorem mem_of_nodup_bounded_full (used : List Nat) (n : Nat) (hn : used.Nodup)
    (hub : ∀ i ∈ used, i < n) (hlen : n = used.length) (i : Nat) (hi : i < n) :
    i ∈ used := by
  have hsub : used.toFinset ⊆ Finset.range n := by
    intro x hx
    simp only [List.mem_toFinset] at hx
    exact Finset.mem_range.mpr (hub x hx)
  have hcard : (Finset.range n).card ≤ used.toFinset.card := by
    rw [Finset.card_range, List.toFinset_card_of_nodup hn, hlen]
  have heq := Finset.eq_of_subset_of_card_le hsub hcard
  have hmem : i ∈ used.toFinset := by rw [heq]; exact Finset.mem_range.mpr hi
  simpa [List.mem_toFinset] using hmem

/-- Preservation of the invariant by one admissible occurrence. -/
theorem supInv_preserve (s : SupState) (used : List Nat) (e : Ev)
    (hI : SupInv s used) (hv : evOk s used e = true) :
    SupInv (step s e) (evUsed used e) := by
  obtain ⟨ok, scan, nodup, ub, full, tm⟩ := hI
  cases e with
  | tick n => exact ⟨ok, scan, nodup, ub, full, tm⟩
  | disconnect => exact ⟨ok, scan, nodup, ub, full, tm⟩
  | timerFire =>
      cases hx : s.exitCode with
      | some c =>
          have hstep : step s Ev.timerFire = s := by simp [step, hx]
          rw [hstep]
          exact ⟨ok, scan, nodup, ub, full, tm⟩
      | none =>
          cases htm : s.timers with
          | nil =>
              have hstep : step s Ev.timerFire = s := by simp [step, hx, htm]
              rw [hstep]
              exact ⟨ok, scan, nodup, ub, full, tm⟩
          | cons d rest =>
              have htm1 := tm hx
              rw [htm] at htm1
              have hfn : s.ffmpegCommand = none := by
                cases hfc : s.ffmpegCommand with
                | none => rfl
                | some j => rw [hfc] at htm1; simp [aliveBit] at htm1
              have hrest : rest = [] := by
                rw [hfn] at htm1
                simpa [aliveBit] using htm1
              by_cases hd : d ≤ s.now
              · have hstep : step s Ev.timerFire =
                    startStream { s with timers := rest } := by
                  simp [step, hx, htm, hd]
                rw [hstep]
                refine ⟨?_, ?_, nodup, ?_, ?_, ?_⟩
                · show (seqRun none (s.trace ++ [SupAction.started s.nextId])).2 = true
                  rw [seqRun_append, scan hx, hfn]
                  simp [seqRun, ok]
                · intro _
                  show (seqRun none (s.trace ++ [SupAction.started s.nextId])).1 =
                    some s.nextId
                  rw [seqRun_append, scan hx, hfn]
                  simp [seqRun]
                · intro i hi
                  exact Nat.lt_succ_of_lt (ub i hi)
                · intro _
                  have hfull := full hx
                  rw [hfn] at hfull
                  simp [aliveBit] at hfull
                  simp [startStream, aliveBit, evUsed]
                  omega
                · intro _
                  simp [startStream, hrest, aliveBit]
              · have hstep : step s Ev.timerFire = s := by
                  simp [step, hx, htm, hd]
                rw [hstep]
                exact ⟨ok, scan, nodup, ub, full, tm⟩
  | pipelineEvent i =>
      have hv1 : decide (i < s.nextId) = true ∧ (!(decide (i ∈ used))) = true := by
        simpa [evOk, Bool.and_eq_true] using hv
      have hlt : i < s.nextId := of_decide_eq_true hv1.1
      have hmem : i ∉ used := by
        have h2 := hv1.2
        simp at h2
        exact h2
      cases hx : s.exitCode with
      | some c =>
          have hstep : step s (Ev.pipelineEvent i) = s := by simp [step, hx]
          rw [hstep]
          refine ⟨ok, scan, List.nodup_cons.mpr ⟨hmem, nodup⟩, ?_,
            fun h => absurd h (by simp [hx]), fun h => absurd h (by simp [hx])⟩
          intro x hx2
          rcases List.mem_cons.mp hx2 with h | h
          · exact h ▸ hlt
          · exact ub x h
      | none =>
          have hfs : s.ffmpegCommand.isSome = true := by
            cases hfc : s.ffmpegCommand with
            | some j => rfl
            | none =>
                exfalso
                have hfull := full hx
                rw [hfc] at hfull
                simp [aliveBit] at hfull
                exact hmem (mem_of_nodup_bounded_full used s.nextId nodup ub hfull i hlt)
          obtain ⟨j, hfc⟩ := Option.isSome_iff_exists.mp hfs
          have htm0 : s.timers = [] := by
            have htm1 := tm hx
            rw [hfc] at htm1
            simpa [aliveBit] using htm1
          have hstep : step s (Ev.pipelineEvent i) = scheduleReconnect s := by
            simp [step, hx]
          have hub2 : ∀ x ∈ i :: used, x < s.nextId := by
            intro x hx2
            rcases List.mem_cons.mp hx2 with h | h
            · exact h ▸ hlt
            · exact ub x h
          have hnodup2 : (i :: used).Nodup := List.nodup_cons.mpr ⟨hmem, nodup⟩
          rcases hb : s.browser with _ | conn
          · -- browser handle never created: scoped restart branch
            have hs2 : scheduleReconnect s =
                { s with ffmpegCommand := none,
                         trace := s.trace ++ [SupAction.killReq j],
                         log := s.log ++ [reconnectMsg],
                         timers := s.timers ++ [s.now + RECONNECT_DELAY] } := by
              simp [scheduleReconnect, hb, cleanupPipeline, hfc]
            rw [hstep, hs2]
            refine ⟨?_, ?_, hnodup2, hub2, ?_, ?_⟩
            · show (seqRun none (s.trace ++ [SupAction.killReq j])).2 = true
              rw [seqRun_append, scan hx, hfc]
              simp [seqRun, ok]
            · intro _
              show (seqRun none (s.trace ++ [SupAction.killReq j])).1 = none
              rw [seqRun_append, scan hx, hfc]
              simp [seqRun]
            · intro _
              have hfull := full hx
              rw [hfc] at hfull
              simp [aliveBit] at hfull
              simp [aliveBit, evUsed]
              omega
            · intro _
              simp [htm0, aliveBit]
          · cases conn with
            | false =>
                -- fatal branch: kill, log, process.exit(1)
                have hs2 : scheduleReconnect s =
                    { s with ffmpegCommand := none,
                             trace := s.trace ++ [SupAction.killReq j, SupAction.exited 1],
                             log := s.log ++ [reconnectMsg, disconnectMsg],
                             exitCode := some 1 } := by
                  simp [scheduleReconnect, hb, cleanupPipeline, hfc]
                rw [hstep, hs2]
                refine ⟨?_, ?_, hnodup2, hub2, ?_, ?_⟩
                · show (seqRun none
                    (s.trace ++ [SupAction.killReq j, SupAction.exited 1])).2 = true
                  rw [seqRun_append, scan hx, hfc]
                  simp [seqRun, ok]
                · intro h; exact absurd h (by simp)
                · intro h; exact absurd h (by simp)
                · intro h; exact absurd h (by simp)
            | true =>
                have hs2 : scheduleReconnect s =
                    { s with ffmpegCommand := none,
                             trace := s.trace ++ [SupAction.killReq j],
                             log := s.log ++ [reconnectMsg],
                             timers := s.timers ++ [s.now + RECONNECT_DELAY] } := by
                  simp [scheduleReconnect, hb, cleanupPipeline, hfc]
                rw [hstep, hs2]
                refine ⟨?_, ?_, hnodup2, hub2, ?_, ?_⟩
                · show (seqRun none (s.trace ++ [SupAction.killReq j])).2 = true
                  rw [seqRun_append, scan hx, hfc]
                  simp [seqRun, ok]
                · intro _
                  show (seqRun none (s.trace ++ [SupAction.killReq j])).1 = none
                  rw [seqRun_append, scan hx, hfc]
                  simp [seqRun]
                · intro _
                  have hfull := full hx
                  rw [hfc] at hfull
                  simp [aliveBit] at hfull
                  simp [aliveBit, evUsed]
                  omega
                · intro _
                  simp [htm0, aliveBit]

/-- The invariant implies the single-pipeline property of every reachable
trace. -/
theorem supInv_runEvs_ok (evs : List Ev) (s : SupState) (used : List Nat)
    (hI : SupInv s used) (hv : validEvs s used evs = true) :
    seqOk none (runEvs s evs).trace = true := by
  induction evs generalizing s used with
  | nil => exact hI.ok
  | cons e es ih =>
      rw [validEvs] at hv
      obtain ⟨h1, h2⟩ := Bool.and_eq_true_iff.mp hv
      exact ih (step s e) (evUsed used e) (supInv_preserve s used e hI h1) h2

/-- The invariant holds right after bootstrap. -/
theorem supInv_init (c : Bool) : SupInv (initState c) [] := by
  refine ⟨rfl, fun _ => rfl, List.nodup_nil, ?_, fun _ => rfl, fun _ => rfl⟩
  intro i hi
  exact absurd hi (List.not_mem_nil i)

/-- Claim C1, amended: provided each pipeline instance delivers at most one
lifecycle event, a new pipeline instance is never started before the stop
of the previous instance has been requested, so at most one instance is
ever in the started state at a time.  (The unamended claim fails when two
lifecycle events are delivered for the same instance, see the
counterexample.) -/
theorem claim1_amended_single_pipeline (c : Bool) (evs : List Ev)
    (hv : validEvs (initState c) [] evs = true) :
    seqOk none (runEvs (initState c) evs).trace = true :=
  supInv_runEvs_ok evs (initState c) [] (supInv_init c) hv

/-- Witness for the amended claim C1: two full restart cycles, one
lifecycle event per instance. -/
theorem claim1_witness :
    seqOk none (runEvs (initState true)
      [Ev.pipelineEvent 0, Ev.tick RECONNECT_DELAY, Ev.timerFire,
       Ev.pipelineEvent 1, Ev.tick RECONNECT_DELAY, Ev.timerFire]).trace = true :=
  claim1_amended_single_pipeline true
    [Ev.pipelineEvent 0, Ev.tick RECONNECT_DELAY, Ev.timerFire,
     Ev.pipelineEvent 1, Ev.tick RECONNECT_DELAY, Ev.timerFire] (by decide)

/-! ## Capture pipeline geometry (src/index.js lines 160-174 and 454-501)

The second revision computes the crop rectangle from the config constants
and scales back to the frame size; the first revision hard-codes the same
shape of filter with crop values 130 (top) and 0 (left/bottom). -/

/-- The video filter chain: a crop rectangle followed by a scale. -/
structure VideoFilter where
  cropW : Nat
  cropH : Nat
  cropX : Nat
  cropY : Nat
  scaleW : Nat
  scaleH : Nat
deriving DecidableEq, Repr

namespace Rev2

/-- Frame and crop configuration constants of the second revision
(src/index.js lines 286-294). -/
def SCREEN_WIDTH : Nat := 1500

def SCREEN_HEIGHT : Nat := 900

def CROP_TOP : Nat := 150

def CROP_BOTTOM : Nat := 80

def CROP_LEFT : Nat := 25

/-- `cropWidth` (src/index.js line 461). -/
def cropWidth : Nat := SCREEN_WIDTH - CROP_LEFT

/-- `cropHeight` (src/index.js line 462). -/
def cropHeight : Nat := SCREEN_HEIGHT - CROP_TOP - CROP_BOTTOM

/-- `cropFilter` (src/index.js line 463). -/
def cropFilter : String :=
  s!"crop={cropWidth}:{cropHeight}:{CROP_LEFT}:{CROP_TOP},scale={SCREEN_WIDTH}:{SCREEN_HEIGHT}"

/-- The filter chain of `startStream` in the second revision as structured
data: crop at origin (CROP_LEFT, CROP_TOP), then scale back to the frame. -/
def startStreamFilter : VideoFilter :=
  ⟨cropWidth, cropHeight, CROP_LEFT, CROP_TOP, SCREEN_WIDTH, SCREEN_HEIGHT⟩

end Rev2

namespace Rev1

/-- Frame constants of the first revision (src/index.js lines 28-29). -/
def SCREEN_WIDTH : Nat := 1280

def SCREEN_HEIGHT : Nat := 720

/-- The hard-coded complexFilter of the first revision (src/index.js lines
171-174): crop w=WIDTH, h=HEIGHT-130 at (0,130), then scale back. -/
def complexFilterCrop : VideoFilter :=
  ⟨SCREEN_WIDTH, SCREEN_HEIGHT - 130, 0, 130, SCREEN_WIDTH, SCREEN_HEIGHT⟩

end Rev1

/-- Claim C9: the crop rectangle is cropWidth = frameWidth - cropLeft,
cropHeight = frameHeight - cropTop - cropBottom, with origin
(cropLeft, cropTop), and the cropped image is scaled back to the original
frame size, leaving the published resolution unchanged; the first
revision's hard-coded filter is the same formula at top=130, left=0,
bottom=0. -/
theorem claim9_crop_geometry :
    Rev2.startStreamFilter.cropW = Rev2.SCREEN_WIDTH - Rev2.CROP_LEFT ∧
    Rev2.startStreamFilter.cropH =
      Rev2.SCREEN_HEIGHT - Rev2.CROP_TOP - Rev2.CROP_BOTTOM ∧
    Rev2.startStreamFilter.cropX = Rev2.CROP_LEFT ∧
    Rev2.startStreamFilter.cropY = Rev2.CROP_TOP ∧
    Rev2.startStreamFilter.scaleW = Rev2.SCREEN_WIDTH ∧
    Rev2.startStreamFilter.scaleH = Rev2.SCREEN_HEIGHT ∧
    Rev2.cropFilter = "crop=1475:670:25:150,scale=1500:900" ∧
    Rev1.complexFilterCrop.cropW = Rev1.SCREEN_WIDTH - 0 ∧
    Rev1.complexFilterCrop.cropH = Rev1.SCREEN_HEIGHT - 130 - 0 ∧
    Rev1.complexFilterCrop.cropX = 0 ∧
    Rev1.complexFilterCrop.cropY = 130 ∧
    Rev1.complexFilterCrop.scaleW = Rev1.SCREEN_WIDTH ∧
    Rev1.complexFilterCrop.scaleH = Rev1.SCREEN_HEIGHT := by
  decide

/-! ## Display and audio bootstrap (src/index.js lines 41-84 and 305-376)

Node semantics of the children involved:
  * `spawn(cmd, args)` never throws synchronously for a missing binary;
    the failure surfaces later as an `error` event on the child.  A child
    `error` event with no listener is an uncaught exception thrown from
    the event loop: it bypasses every enclosing try/catch (including the
    one in `main`) and kills the process with the default non-zero
    status.
  * A child that runs but exits non-zero produces no `error` event; with
    no `exit` listener installed the failure is completely invisible.
  * `execSync` throws synchronously both for a missing binary and for a
    non-zero exit, so it does reach an enclosing catch.

First revision (lines 41-84): every audio step is a fire-and-forget
`spawn`, so the try/catch around the block and its WARN line are
unreachable for these failure modes: a spawn-level failure crashes the
process during the following settle delay, and a non-zero command exit is
silently ignored (the SUCCESS line is logged regardless).  The Xvfb child
only gets a stderr listener, so a spawn-level failure there also crashes
the process; an Xvfb that starts but dies leaves the display down, and
the subsequent `puppeteer.launch` bound to `--display=:99` fails, which
the try/catch in `main` (lines 235-247) logs and turns into exit 1.

Second revision (lines 305-376): the audio steps use `execSync` inside
per-step try/catch blocks (WARN), the daemon spawn gets an `error`
listener (ERROR), and the Xvfb child gets an `error` listener that only
logs, so the phase itself never terminates the process; a dead display
then makes the render-engine launch in `main` fail, and `main` exits 1. -/

/-- How one of the spawned children behaves. -/
inductive SpawnResult where
  | ok
  | spawnError
  | exitNonZero
deriving DecidableEq, Repr

/-- Failure switches for the first-revision bootstrap: the audio daemon
spawns (`pulseaudio -k` / `-D`), the `pactl` sink commands, and the Xvfb
spawn. -/
structure BootEnv1 where
  pulseSpawn : SpawnResult
  pactlSpawn : SpawnResult
  xvfbSpawn : SpawnResult
deriving DecidableEq, Repr

/-- Outcome of the bootstrap flow: the emitted log and the exit status if
the process terminated. -/
structure BootOutcome where
  log : List LogLine
  exitCode : Option Nat
deriving DecidableEq, Repr

/-- The two log lines emitted before any child is spawned
(src/index.js lines 42-45). -/
def bootLogBase : List LogLine :=
  [⟨Severity.INFO, "Starting Xvfb..."⟩, ⟨Severity.INFO, "Starting PulseAudio..."⟩]

/-- `main` of the first revision (src/index.js lines 235-247) through the
display/audio phase (lines 41-84) and into the render-engine launch:
an unlistened child `error` event (missing `pulseaudio`, `pactl` or
`Xvfb` binary) crashes the process during the settle delay that follows
the spawn, bypassing both the local catch and the catch in `main`; a
non-zero exit of an audio command is invisible and the SUCCESS line is
logged anyway; an Xvfb that starts but exits leaves the display down, so
`startBrowser` fails against `--display=:99` and the catch in `main` logs
the fatal startup error and exits 1. -/
def mainBootRev1 (e : BootEnv1) : BootOutcome :=
  if e.pulseSpawn = SpawnResult.spawnError then
    -- uncaught `error` event from the pulseaudio child
    ⟨bootLogBase, some 1⟩
  else if e.pactlSpawn = SpawnResult.spawnError then
    -- uncaught `error` event from the first pactl child
    ⟨bootLogBase, some 1⟩
  else
    -- non-zero audio command exits are unobserved: no warning, no abort
    let logs := bootLogBase ++
      [⟨Severity.SUCCESS, "PulseAudio VirtualSink initialized."⟩]
    if e.xvfbSpawn = SpawnResult.spawnError then
      -- uncaught `error` event from the Xvfb child
      ⟨logs, some 1⟩
    else if e.xvfbSpawn = SpawnResult.exitNonZero then
      -- the display is down: the browser launch rejects into the catch
      -- of `main`, which logs and exits 1
      ⟨logs ++ [⟨Severity.ERROR, "Fatal error during startup: browser launch failed"⟩],
       some 1⟩
    else
      ⟨logs ++ [⟨Severity.SUCCESS, "Page loaded."⟩], none⟩

/-- Failure switches for the second-revision bootstrap. -/
structure BootEnv2 where
  daemonSpawnFails : Bool
  sinkCreateFails : Bool
  sinkConfigFails : Bool
  listSinksFails : Bool
  xvfbSpawnFails : Bool
deriving DecidableEq, Repr

/-- `startXvfb` of the second revision (src/index.js lines 305-376): every
step has its own handler that only logs, including the `error` listener on
the Xvfb child, so the phase always completes without exiting and even
logs the final SUCCESS line when the display failed to start. -/
def startXvfbRev2 (e : BootEnv2) : BootOutcome :=
  ⟨[⟨Severity.INFO, "Starting Xvfb..."⟩, ⟨Severity.INFO, "Starting PulseAudio..."⟩]
    ++ (if e.daemonSpawnFails then
          [⟨Severity.ERROR, "PulseAudio spawn error: spawn failed"⟩] else [])
    ++ (if e.sinkCreateFails then
          [⟨Severity.WARN, "VirtualSink may already exist: pactl failed"⟩]
        else [⟨Severity.SUCCESS, "Created VirtualSink"⟩])
    ++ (if e.sinkConfigFails then
          [⟨Severity.WARN, "Failed to set default sink: pactl failed"⟩]
        else [⟨Severity.SUCCESS, "Set VirtualSink as default with 100% volume"⟩])
    ++ (if e.listSinksFails then [⟨Severity.WARN, "Could not list sinks"⟩]
        else [⟨Severity.DEBUG, "Available sinks: VirtualSink"⟩])
    ++ [⟨Severity.SUCCESS, "PulseAudio VirtualSink initialized."⟩]
    ++ (if e.xvfbSpawnFails then
          [⟨Severity.ERROR, "Xvfb error: spawn Xvfb ENOENT"⟩] else [])
    ++ [⟨Severity.SUCCESS, "Xvfb started on display :99"⟩],
   none⟩

/-- `main` of the second revision through the display/audio phase and into
the render-engine launch: the phase itself never exits, but when the Xvfb
spawn failed the display is down, so `puppeteer.launch` bound to
`--display=:99` rejects and the catch in `main` logs the fatal startup
error and exits 1. -/
def mainBootRev2 (e : BootEnv2) : BootOutcome :=
  let x := startXvfbRev2 e
  if e.xvfbSpawnFails then
    ⟨x.log ++ [⟨Severity.ERROR, "Fatal error during startup: browser launch failed"⟩],
     some 1⟩
  else
    ⟨x.log ++ [⟨Severity.SUCCESS, "Page loaded."⟩], none⟩

/-- Counterexample to claim C8 as stated: in the first revision a failure
to spawn the audio daemon is an unlistened `error` event on the child,
which crashes the process mid-bootstrap with a non-zero status and
without any WARN line, so that audio-tier setup failure is neither
downgraded to a warning nor bootstrap-preserving. -/
theorem claim8_counterexample :
    mainBootRev1 ⟨SpawnResult.spawnError, SpawnResult.ok, SpawnResult.ok⟩ =
      ⟨[⟨Severity.INFO, "Starting Xvfb..."⟩,
        ⟨Severity.INFO, "Starting PulseAudio..."⟩], some 1⟩ := by
  decide

/-- Claim C8, amended: in the first revision the audio-tier commands are
fire-and-forget spawns, so a spawn-level audio failure crashes the
process mid-bootstrap (unhandled child `error` event, non-zero status)
while a non-zero audio command exit is silently ignored with no warning;
in the second revision audio-tier failures never abort the bootstrap
phase (sink creation and configuration failures are downgraded to WARN
lines, a daemon spawn failure is logged at ERROR severity).  A failure to
start the virtual display server is fatal with a non-zero status in both
revisions: in the first, a spawn-level failure crashes via the unhandled
`error` event and a display that dies after starting makes the
render-engine launch fail into the catch of `main` which exits 1; in the
second, the installed Xvfb `error` listener only logs, the phase
continues, and the render-engine launch against the dead display fails
into the catch of `main` which exits 1. -/
theorem claim8_amended_bootstrap_failure_policy :
    (∀ p x : SpawnResult,
      (mainBootRev1 ⟨SpawnResult.spawnError, p, x⟩).exitCode = some 1) ∧
    (∀ a p : SpawnResult, a ≠ SpawnResult.spawnError → p ≠ SpawnResult.spawnError →
      (mainBootRev1 ⟨a, p, SpawnResult.exitNonZero⟩).exitCode = some 1 ∧
      (mainBootRev1 ⟨a, p, SpawnResult.spawnError⟩).exitCode = some 1 ∧
      ((mainBootRev1 ⟨a, p, SpawnResult.ok⟩).exitCode = none ∧
       (mainBootRev1 ⟨a, p, SpawnResult.ok⟩).log.all
         (fun l => !(l.sev == Severity.WARN)) = true)) ∧
    (∀ e : BootEnv2, (startXvfbRev2 e).exitCode = none) ∧
    (∀ e : BootEnv2, e.sinkCreateFails = true →
      ⟨Severity.WARN, "VirtualSink may already exist: pactl failed"⟩ ∈
        (startXvfbRev2 e).log) ∧
    (∀ e : BootEnv2, e.sinkConfigFails = true →
      ⟨Severity.WARN, "Failed to set default sink: pactl failed"⟩ ∈
        (startXvfbRev2 e).log) ∧
    (∀ e : BootEnv2, e.xvfbSpawnFails = true → (mainBootRev2 e).exitCode = some 1) ∧
    (∀ e : BootEnv2, e.xvfbSpawnFails = false → (mainBootRev2 e).exitCode = none) := by
  refine ⟨?_, ?_, ?_, ?_, ?_, ?_, ?_⟩
  · intro p x; rfl
  · intro a p ha hp
    cases a <;> cases p <;>
      first
        | exact absurd rfl ha
        | exact absurd rfl hp
        | decide
  · intro e; rfl
  · rintro ⟨a, b, c, d, x⟩ h
    subst h
    cases a <;> cases c <;> cases d <;> cases x <;> decide
  · rintro ⟨a, b, c, d, x⟩ h
    subst h
    cases a <;> cases b <;> cases d <;> cases x <;> decide
  · intro e h; simp [mainBootRev2, h]
  · intro e h; simp [mainBootRev2, h]

/-- Witness for the amended claim C8: a non-zero audio command exit in the
first revision leaves bootstrap running with no WARN line; in the second
revision a sink-creation failure yields a WARN line and a display failure
ends in exit 1. -/
theorem claim8_witness :
    ((mainBootRev1 ⟨SpawnResult.exitNonZero, SpawnResult.exitNonZero,
        SpawnResult.ok⟩).exitCode = none ∧
     (mainBootRev1 ⟨SpawnResult.exitNonZero, SpawnResult.exitNonZero,
        SpawnResult.ok⟩).log.all (fun l => !(l.sev == Severity.WARN)) = true) ∧
    ⟨Severity.WARN, "VirtualSink may already exist: pactl failed"⟩ ∈
      (startXvfbRev2 ⟨false, true, false, false, true⟩).log ∧
    (mainBootRev2 ⟨false, true, false, false, true⟩).exitCode = some 1 :=
  ⟨(claim8_amended_bootstrap_failure_policy.2.1 SpawnResult.exitNonZero
      SpawnResult.exitNonZero (by decide) (by decide)).2.2,
   claim8_amended_bootstrap_failure_policy.2.2.2.1
     ⟨false, true, false, false, true⟩ rfl,
   claim8_amended_bootstrap_failure_policy.2.2.2.2.2.1
     ⟨false, true, false, false, true⟩ rfl⟩

/-! ## Graceful shutdown (src/index.js lines 250-256)

The SIGINT handler: the encoder kill is wrapped in its own try/catch, but
`await browser.close()` is not, so a rejection there escapes the async
handler before `xvfbProcess.kill()` and `process.exit(0)` are reached. -/

/-- The handles present at shutdown time and which teardown steps fail. -/
structure ShutdownEnv where
  ffmpegPresent : Bool
  ffmpegKillFails : Bool
  browserPresent : Bool
  browserCloseFails : Bool
  xvfbPresent : Bool
deriving DecidableEq, Repr

/-- The three teardown steps of the handler, in source order. -/
inductive TeardownStep where
  | stopEncoder | closeSession | stopDisplay
deriving DecidableEq, Repr

/-- Result of the SIGINT handler: either `process.exit(code)` was reached
after the listed steps, or the handler was aborted by an uncaught
rejection after the listed steps (so `process.exit(0)` never ran). -/
inductive ShutdownOutcome where
  | exited (code : Nat) (done : List TeardownStep)
  | aborted (done : List TeardownStep)
deriving DecidableEq, Repr

/-- The SIGINT handler (src/index.js lines 250-256). -/
def sigintHandler (e : ShutdownEnv) : ShutdownOutcome :=
  -- if (ffmpegCommand) try { ffmpegCommand.kill() } catch (e) {}
  -- a kill failure is swallowed, so the attempt counts either way
  let d1 : List TeardownStep :=
    if e.ffmpegPresent then [TeardownStep.stopEncoder] else []
  -- if (browser) await browser.close()  -- no try/catch around this await
  if e.browserPresent && e.browserCloseFails then
    ShutdownOutcome.aborted d1
  else
    let d2 := d1 ++ (if e.browserPresent then [TeardownStep.closeSession] else [])
    let d3 := d2 ++ (if e.xvfbPresent then [TeardownStep.stopDisplay] else [])
    ShutdownOutcome.exited 0 d3

/-- Counterexample to claim C6 as stated: with all three handles present,
a failing render-session close aborts the handler right after the encoder
stop; the display is never terminated and `process.exit(0)` is never
reached, so the run does not exit with status 0. -/
theorem claim6_counterexample :
    sigintHandler ⟨true, false, true, true, true⟩ =
      ShutdownOutcome.aborted [TeardownStep.stopEncoder] := by
  decide

/-- Claim C6, amended: on the stop signal the encoder stop step is
individually guarded, so its failure never blocks shutdown, and whenever
the render-session close does not fail the handler performs the remaining
steps and exits with status 0; but a failing render-session close aborts
the handler before the display is terminated and before the exit-0 call. -/
theorem claim6_amended_graceful_shutdown (e : ShutdownEnv)
    (h : e.browserPresent = false ∨ e.browserCloseFails = false) :
    sigintHandler e =
      ShutdownOutcome.exited 0
        ((if e.ffmpegPresent then [TeardownStep.stopEncoder] else []) ++
         (if e.browserPresent then [TeardownStep.closeSession] else []) ++
         (if e.xvfbPresent then [TeardownStep.stopDisplay] else [])) := by
  rcases h with h | h <;> simp [sigintHandler, h]

/-- Witness for the amended claim C6: the encoder kill fails, yet the
handler exits 0 after all three steps. -/
theorem claim6_witness :
    sigintHandler ⟨true, true, true, false, true⟩ =
      ShutdownOutcome.exited 0
        [TeardownStep.stopEncoder, TeardownStep.closeSession,
         TeardownStep.stopDisplay] :=
  claim6_amended_graceful_shutdown ⟨true, true, true, false, true⟩ (Or.inr rfl)

/-! ## The stream key in the pipeline start log (src/index.js lines 197-200)

`startStream` deliberately logs the target as `RTMP_URL (Key hidden)`, but
the `start` callback echoes the full ffmpeg invocation at DEBUG level, and
that invocation carries the output destination `FULL_RTMP_URL`, which
always contains the stream key. -/

/-- `pat` occurs contiguously inside `s`. -/
def listOccurs {α : Type} (pat s : List α) : Prop := ∃ u v, s = u ++ pat ++ v

/-- The pattern string occurs contiguously inside the subject string. -/
def strOccurs (pat s : String) : Prop := listOccurs pat.data s.data

/-- The log lines emitted by the pipeline `start` callback
(src/index.js lines 197-200): the SUCCESS notice and the DEBUG echo of the
full ffmpeg command line. -/
def onStartLogs (cmd : String) : List LogLine :=
  [⟨Severity.SUCCESS, "Streaming started!"⟩,
   ⟨Severity.DEBUG, "Command: " ++ cmd⟩]

/-- Claim C7 is violated by the code: whenever the echoed ffmpeg command
line carries the composed destination (its output argument), the DEBUG log
line emitted on pipeline start contains the secret stream key in full. -/
theorem claim7_key_in_start_log (base key cmd : String)
    (h : strOccurs (FULL_RTMP_URL base key) cmd) :
    ⟨Severity.DEBUG, "Command: " ++ cmd⟩ ∈ onStartLogs cmd ∧
    strOccurs key ("Command: " ++ cmd) := by
  refine ⟨by simp [onStartLogs], ?_⟩
  obtain ⟨u, v, hc⟩ := h
  by_cases hsl : strEndsWith base "/"
  · refine ⟨("Command: ").data ++ u ++ base.data, v, ?_⟩
    rw [String.data_append, hc]
    simp [FULL_RTMP_URL, hsl, String.data_append, List.append_assoc]
  · refine ⟨("Command: ").data ++ u ++ (base ++ "/").data, v, ?_⟩
    rw [String.data_append, hc]
    simp [FULL_RTMP_URL, hsl, String.data_append, List.append_assoc]

/-- A plausible serialized ffmpeg invocation: the composed destination is
its final (output) argument. -/
def sampleCmd : String :=
  "ffmpeg -f x11grab -i :99 -f flv " ++ FULL_RTMP_URL "rtmp://x/live" "abc"

/-- Witness for claim C7: at stream key "abc" the DEBUG line on pipeline
start contains "abc" in full. -/
theorem claim7_witness :
    ⟨Severity.DEBUG, "Command: " ++ sampleCmd⟩ ∈ onStartLogs sampleCmd ∧
    strOccurs "abc" ("Command: " ++ sampleCmd) :=
  claim7_key_in_start_log "rtmp://x/live" "abc" sampleCmd
    ⟨"ffmpeg -f x11grab -i :99 -f flv ".data, [], by decide⟩
